import Mathlib

/-!
Verification model of `keystore2/src/globals.rs`: the global connection
caches, the backend connectors with their compatibility-bridge fallback,
and the one-time database repair latch.

External collaborators (the binder service locator, the compatibility
service, hardware devices, the database engine) are modelled by an
explicit environment record; every call a function makes to such a
collaborator is recorded in an external-call log so that statements such
as "performs no new connection attempt" are directly expressible.
-/

namespace Keystore2

/-- AIDL `SecurityLevel`: an i32-backed enum. The generated Rust type is an
open newtype over i32 with named constants, which we mirror here. -/
structure SecurityLevel where
  val : Int
deriving DecidableEq

def SecurityLevel.SOFTWARE : SecurityLevel := ⟨0⟩

def SecurityLevel.TRUSTED_ENVIRONMENT : SecurityLevel := ⟨1⟩

def SecurityLevel.STRONGBOX : SecurityLevel := ⟨2⟩

def SecurityLevel.KEYSTORE : SecurityLevel := ⟨100⟩

/-- `database::Uuid`, the backend identity stored in the device cache. -/
structure Uuid where
  val : Int
deriving DecidableEq

/-- Modelled from the spec: the `From<SecurityLevel> for Uuid` conversion
lives in `database.rs`, which is outside this excerpt. Per the spec the
identity is derived deterministically (1:1) from the security level, so we
embed the level's numeric value into the identity. -/
def Uuid.fromSecLevel (l : SecurityLevel) : Uuid := ⟨l.val⟩

/-- `utils::Asp`: an opaque, clonable, reference-counted handle to a remote
service endpoint. Cloning (and `Asp::new(x.as_binder())`) preserves the
identity of the remote object, so a handle is modelled by its identity. -/
structure Asp where
  id : Nat
deriving DecidableEq

/-- AIDL `KeyMintHardwareInfo`: immutable metadata reported once by the
connected backend, including the backend's own (reported) security level. -/
structure KeyMintHardwareInfo where
  versionNumber : Int
  securityLevel : SecurityLevel
  keyMintName : String
  keyMintAuthorName : String
  timestampTokenRequired : Bool
deriving DecidableEq

/-- binder `StatusCode` as far as this module distinguishes it: the
NAME_NOT_FOUND condition versus every other transport status. -/
inductive StatusCode where
  | NAME_NOT_FOUND
  | otherCode (c : Int)
deriving DecidableEq

/-- keymint `ErrorCode` as far as this module distinguishes it. -/
inductive ErrorCode where
  | HARDWARE_TYPE_UNAVAILABLE
  | otherError (c : Int)
deriving DecidableEq

/-- `error::Error`, the module's error type: a KeyMint error code, a binder
transaction status, or the generic system error produced by `Error::sys()`
(`error.rs` is outside this excerpt; `sys` stands for its system/response
code variant used for the by-uuid cache miss). -/
inductive Error where
  | Km (code : ErrorCode)
  | BinderTransaction (code : StatusCode)
  | sys
deriving DecidableEq

/-- `error::map_binder_status_code`: a binder status error becomes
`Error::BinderTransaction`. `context(...)` calls leave the error kind
unchanged and are therefore dropped by the model. -/
def map_binder_status_code {α : Type} : Except StatusCode α → Except Error α
  | Except.ok a => Except.ok a
  | Except.error c => Except.error (Error.BinderTransaction c)

/-- The external collaborators reachable from this module.
`getInterface` is the platform service locator (`binder::get_interface`),
failing with a distinguishable status code. The two `compat*` fields are
the calls made through the compatibility service, already composed with
`error::map_binder_status` (whose range is `Error`); `getHardwareInfo` is
the device's metadata query composed with `error::map_km_error`. -/
structure Env where
  getInterface : String → Except StatusCode Asp
  compatGetKeyMintDevice : SecurityLevel → Except Error Asp
  compatGetSecureClock : Except Error Asp
  getHardwareInfo : Asp → Except Error KeyMintHardwareInfo

/-- One recorded call to an external collaborator, in program order. -/
inductive ExtCall where
  | getInterface (name : String)
  | addKeymintDeviceService
  | compatGetKeyMintDevice (level : SecurityLevel)
  | compatGetSecureClock
  | getHardwareInfo (dev : Asp)
deriving DecidableEq

/-- Association-list lookup, modelling `HashMap::get`. -/
def alistLookup {κ α : Type} [DecidableEq κ] : List (κ × α) → κ → Option α
  | [], _ => none
  | (k, v) :: rest, key => if key = k then some v else alistLookup rest key

/-- Removal of a key, used to model the overwrite of `HashMap::insert`. -/
def alistErase {κ α : Type} [DecidableEq κ] : List (κ × α) → κ → List (κ × α)
  | [], _ => []
  | (k, v) :: rest, key =>
    if k = key then alistErase rest key else (k, v) :: alistErase rest key

/-- `HashMap::insert`: the new binding replaces any previous binding. -/
def alistInsert {κ α : Type} [DecidableEq κ] (l : List (κ × α)) (key : κ) (v : α) :
    List (κ × α) :=
  (key, v) :: alistErase l key

/-- `DevicesMap`: the mutex-guarded device cache, two maps. -/
structure DevicesMap where
  devices_by_uuid : List (Uuid × (Asp × KeyMintHardwareInfo))
  uuid_by_sec_level : List (SecurityLevel × Uuid)

/-- `DevicesMap::dev_by_uuid`. -/
def DevicesMap.dev_by_uuid (m : DevicesMap) (uuid : Uuid) :
    Option (Asp × KeyMintHardwareInfo × Uuid) :=
  (alistLookup m.devices_by_uuid uuid).map (fun p => (p.1, p.2, uuid))

/-- `DevicesMap::dev_by_sec_level`. -/
def DevicesMap.dev_by_sec_level (m : DevicesMap) (sec_level : SecurityLevel) :
    Option (Asp × KeyMintHardwareInfo × Uuid) :=
  (alistLookup m.uuid_by_sec_level sec_level).bind (fun uuid => m.dev_by_uuid uuid)

/-- `DevicesMap::insert`: the identity is derived from the `sec_level`
argument (the requested level passed down by `get_keymint_device`), and both
mappings are recorded for that derived identity. -/
def DevicesMap.insert (m : DevicesMap) (sec_level : SecurityLevel) (dev : Asp)
    (hw_info : KeyMintHardwareInfo) : DevicesMap :=
  { devices_by_uuid :=
      alistInsert m.devices_by_uuid (Uuid.fromSecLevel sec_level) (dev, hw_info),
    uuid_by_sec_level :=
      alistInsert m.uuid_by_sec_level sec_level (Uuid.fromSecLevel sec_level) }

def KEYMINT_SERVICE_NAME : String := "android.hardware.security.keymint.IKeyMintDevice"

/-- The level-to-service-name mapping at the head of `connect_keymint`:
`none` models the early return with `HARDWARE_TYPE_UNAVAILABLE`. -/
def keymint_service_name (security_level : SecurityLevel) : Option String :=
  if security_level = SecurityLevel.TRUSTED_ENVIRONMENT then
    some (KEYMINT_SERVICE_NAME ++ "/default")
  else if security_level = SecurityLevel.STRONGBOX then
    some (KEYMINT_SERVICE_NAME ++ "/strongbox")
  else none

/-- The `or_else` fallback closure of `connect_keymint`: register the
compatibility bridge (`add_keymint_device_service`, a no-op when repeated),
connect to the fixed compat service name, and request the legacy wrapper;
a NAME_NOT_FOUND from the wrapper request is translated to
`HARDWARE_TYPE_UNAVAILABLE`, every other error propagates. Note that an
error from the compat-service lookup itself propagates untranslated via
the `?` operator. -/
def keymint_fallback (env : Env) (security_level : SecurityLevel) :
    Except Error Asp × List ExtCall :=
  match map_binder_status_code (env.getInterface ("android.security.compat")) with
  | Except.error e2 =>
    (Except.error e2,
     [ExtCall.addKeymintDeviceService, ExtCall.getInterface ("android.security.compat")])
  | Except.ok _compat =>
    match env.compatGetKeyMintDevice security_level with
    | Except.ok d =>
      (Except.ok d,
       [ExtCall.addKeymintDeviceService, ExtCall.getInterface ("android.security.compat"),
        ExtCall.compatGetKeyMintDevice security_level])
    | Except.error (Error.BinderTransaction StatusCode.NAME_NOT_FOUND) =>
      (Except.error (Error.Km ErrorCode.HARDWARE_TYPE_UNAVAILABLE),
       [ExtCall.addKeymintDeviceService, ExtCall.getInterface ("android.security.compat"),
        ExtCall.compatGetKeyMintDevice security_level])
    | Except.error e3 =>
      (Except.error e3,
       [ExtCall.addKeymintDeviceService, ExtCall.getInterface ("android.security.compat"),
        ExtCall.compatGetKeyMintDevice security_level])

/-- The native-lookup-with-fallback step of `connect_keymint`: try the
native service; only a NAME_NOT_FOUND transaction error triggers the
fallback, every other error propagates without fallback. -/
def connect_keymint_native (env : Env) (security_level : SecurityLevel)
    (service_name : String) : Except Error Asp × List ExtCall :=
  match map_binder_status_code (env.getInterface service_name) with
  | Except.ok k => (Except.ok k, [ExtCall.getInterface service_name])
  | Except.error (Error.BinderTransaction StatusCode.NAME_NOT_FOUND) =>
    match keymint_fallback env security_level with
    | (res, log) => (res, ExtCall.getInterface service_name :: log)
  | Except.error e => (Except.error e, [ExtCall.getInterface service_name])

/-- `connect_keymint`: map the level to a service name (failing immediately,
with no external call, for unknown levels), resolve a device via the native
path with bridge fallback, then query its hardware metadata; a metadata
failure propagates and nothing is returned for caching. The returned handle
is `Asp::new(keymint.as_binder())`, identity-equal to the resolved handle. -/
def connect_keymint (env : Env) (security_level : SecurityLevel) :
    Except Error (Asp × KeyMintHardwareInfo) × List ExtCall :=
  match keymint_service_name security_level with
  | none => (Except.error (Error.Km ErrorCode.HARDWARE_TYPE_UNAVAILABLE), [])
  | some service_name =>
    match connect_keymint_native env security_level service_name with
    | (Except.error e, log) => (Except.error e, log)
    | (Except.ok keymint, log) =>
      match env.getHardwareInfo keymint with
      | Except.error e => (Except.error e, log ++ [ExtCall.getHardwareInfo keymint])
      | Except.ok hw_info =>
        (Except.ok (keymint, hw_info), log ++ [ExtCall.getHardwareInfo keymint])

/-- `get_keymint_device`, with the `KEY_MINT_DEVICES` cache passed as
explicit state (the mutex serializes all accesses, so one call is one atomic
state transition). The final component counts the `connect_keymint`
invocations the call performs (0 or 1). The `none` fallback of the inner
match models the `unwrap()` after the insert; it is proved unreachable in
`dev_by_sec_level_insert_self`. -/
def get_keymint_device (env : Env) (m : DevicesMap) (security_level : SecurityLevel) :
    Except Error (Asp × KeyMintHardwareInfo × Uuid) × DevicesMap × Nat :=
  match m.dev_by_sec_level security_level with
  | some r => (Except.ok r, m, 0)
  | none =>
    match (connect_keymint env security_level).1 with
    | Except.error e => (Except.error e, m, 1)
    | Except.ok (dev, hw_info) =>
      match (m.insert security_level dev hw_info).dev_by_sec_level security_level with
      | some r => (Except.ok r, m.insert security_level dev hw_info, 1)
      | none => (Except.error Error.sys, m.insert security_level dev hw_info, 1)

/-- `get_keymint_dev_by_uuid`: a cache-only lookup. Like the other entry
points it is instrumented with the number of connector invocations it
performs; its body contains none, on either branch. The miss branch returns
`Error::sys()` ("No KeyMint instance found"). -/
def get_keymint_dev_by_uuid (m : DevicesMap) (uuid : Uuid) :
    Except Error (Asp × KeyMintHardwareInfo) × Nat :=
  match m.dev_by_uuid uuid with
  | some (dev, hw_info, _) => (Except.ok (dev, hw_info), 0)
  | none => (Except.error Error.sys, 0)

def TIME_STAMP_SERVICE_NAME : String := "android.hardware.security.secureclock.ISecureClock"

/-- The `or_else` fallback closure of `connect_secureclock`, same shape as
`keymint_fallback` but requesting the legacy secure-clock wrapper. -/
def secureclock_fallback (env : Env) : Except Error Asp × List ExtCall :=
  match map_binder_status_code (env.getInterface ("android.security.compat")) with
  | Except.error e2 =>
    (Except.error e2,
     [ExtCall.addKeymintDeviceService, ExtCall.getInterface ("android.security.compat")])
  | Except.ok _compat =>
    match env.compatGetSecureClock with
    | Except.ok d =>
      (Except.ok d,
       [ExtCall.addKeymintDeviceService, ExtCall.getInterface ("android.security.compat"),
        ExtCall.compatGetSecureClock])
    | Except.error (Error.BinderTransaction StatusCode.NAME_NOT_FOUND) =>
      (Except.error (Error.Km ErrorCode.HARDWARE_TYPE_UNAVAILABLE),
       [ExtCall.addKeymintDeviceService, ExtCall.getInterface ("android.security.compat"),
        ExtCall.compatGetSecureClock])
    | Except.error e3 =>
      (Except.error e3,
       [ExtCall.addKeymintDeviceService, ExtCall.getInterface ("android.security.compat"),
        ExtCall.compatGetSecureClock])

/-- `connect_secureclock`: single fixed service name, fallback on
NAME_NOT_FOUND only. -/
def connect_secureclock (env : Env) : Except Error Asp × List ExtCall :=
  match map_binder_status_code (env.getInterface TIME_STAMP_SERVICE_NAME) with
  | Except.ok k => (Except.ok k, [ExtCall.getInterface TIME_STAMP_SERVICE_NAME])
  | Except.error (Error.BinderTransaction StatusCode.NAME_NOT_FOUND) =>
    match secureclock_fallback env with
    | (res, log) => (res, ExtCall.getInterface TIME_STAMP_SERVICE_NAME :: log)
  | Except.error e => (Except.error e, [ExtCall.getInterface TIME_STAMP_SERVICE_NAME])

/-- `get_timestamp_service`, with the `TIME_STAMP_DEVICE` cell passed as
explicit state. Last component counts `connect_secureclock` invocations.
`dev.clone()` preserves handle identity, so the cached handle itself is
returned. -/
def get_timestamp_service (env : Env) (ts : Option Asp) :
    Except Error Asp × Option Asp × Nat :=
  match ts with
  | some dev => (Except.ok dev, some dev, 0)
  | none =>
    match (connect_secureclock env).1 with
    | Except.error e => (Except.error e, none, 1)
    | Except.ok dev => (Except.ok dev, some dev, 1)

/-- The three repair steps performed inside the `DB_INIT.call_once` closure
of `create_thread_local_db`, in source order. -/
inductive RepairEvent where
  | insertLastOffBody
  | cleanupLeftovers
  | notifyGc
deriving DecidableEq

/-- The ordered repair sequence: `insert_last_off_body`, then
`cleanup_leftovers`, then `Gc::notify_gc`. -/
def repair_sequence : List RepairEvent :=
  [RepairEvent.insertLastOffBody, RepairEvent.cleanupLeftovers, RepairEvent.notifyGc]

/-- `create_thread_local_db`. The Bool is the completed flag of the
`DB_INIT: Once` latch. `std::sync::Once::call_once` runs its closure at
most once process-wide, and every caller — including concurrent losers of
the race — returns only after the closure has completed, so one session
creation is one atomic step on the latch; the returned list holds the
repair events this call performs (in order) before it returns its session.
The `expect` failure paths abort the process and are outside the model. -/
def create_thread_local_db (db_init_done : Bool) : Bool × List RepairEvent :=
  if db_init_done then (true, []) else (true, repair_sequence)

/-- A process run of `n` first-session creations (one per thread, in an
arbitrary global order — the creations are symmetric): returns the final
latch state and, per creation in order, the repair events it performed. -/
def run_sessions : Nat → Bool → Bool × List (List RepairEvent)
  | 0, s => (s, [])
  | Nat.succ n, s =>
    match create_thread_local_db s with
    | (s1, ev) =>
      match run_sessions n s1 with
      | (s2, rest) => (s2, ev :: rest)

/-- The invariant that every recorded level-to-identity mapping is the one
`DevicesMap::insert` derives: this holds of every reachable cache state. -/
def DevicesMap.Derived (m : DevicesMap) : Prop :=
  ∀ l u, alistLookup m.uuid_by_sec_level l = some u → u = Uuid.fromSecLevel l

/-- A sequence of further `get_keymint_device` calls (arbitrary environments
and levels), returning the final cache state. -/
def run_get_calls : List (Env × SecurityLevel) → DevicesMap → DevicesMap
  | [], m => m
  | (env, l) :: rest, m => run_get_calls rest (get_keymint_device env m l).2.1

/-- The empty cache, the initial `KEY_MINT_DEVICES` state. -/
def emptyDevicesMap : DevicesMap := { devices_by_uuid := [], uuid_by_sec_level := [] }

/-- Concrete metadata reporting the trusted-execution level. -/
def hwInfoTee : KeyMintHardwareInfo :=
  { versionNumber := 100, securityLevel := SecurityLevel.TRUSTED_ENVIRONMENT,
    keyMintName := "KeyMintDevice", keyMintAuthorName := "Android",
    timestampTokenRequired := false }

/-- Concrete metadata whose reported level is strongbox. -/
def hwInfoSb : KeyMintHardwareInfo :=
  { versionNumber := 100, securityLevel := SecurityLevel.STRONGBOX,
    keyMintName := "KeyMintDevice", keyMintAuthorName := "Android",
    timestampTokenRequired := false }

def devA : Asp := ⟨1⟩

def devB : Asp := ⟨2⟩

/-- An environment in which every service resolves and every device reports
`hwInfoTee`. -/
def okEnv : Env :=
  { getInterface := fun _ => Except.ok devA,
    compatGetKeyMintDevice := fun _ => Except.ok devB,
    compatGetSecureClock := Except.ok devB,
    getHardwareInfo := fun _ => Except.ok hwInfoTee }

/-- An environment in which no service name resolves at all: the native
lookup and the compat-service lookup both report NAME_NOT_FOUND. -/
def absentEnv : Env :=
  { getInterface := fun _ => Except.error StatusCode.NAME_NOT_FOUND,
    compatGetKeyMintDevice := fun _ =>
      Except.error (Error.BinderTransaction StatusCode.NAME_NOT_FOUND),
    compatGetSecureClock :=
      Except.error (Error.BinderTransaction StatusCode.NAME_NOT_FOUND),
    getHardwareInfo := fun _ => Except.error Error.sys }

/-- An environment in which the native lookup fails with a transport error
that is not NAME_NOT_FOUND, while the whole fallback path would succeed. -/
def transportErrEnv : Env :=
  { getInterface := fun name =>
      if name = "android.security.compat" then Except.ok devB
      else Except.error (StatusCode.otherCode (-32)),
    compatGetKeyMintDevice := fun _ => Except.ok devB,
    compatGetSecureClock := Except.ok devB,
    getHardwareInfo := fun _ => Except.ok hwInfoTee }

/-- An environment in which the native service is absent, the compat
service resolves, and the legacy wrapper request reports NAME_NOT_FOUND. -/
def wrapperAbsentEnv : Env :=
  { getInterface := fun name =>
      if name = "android.security.compat" then Except.ok devB
      else Except.error StatusCode.NAME_NOT_FOUND,
    compatGetKeyMintDevice := fun _ =>
      Except.error (Error.BinderTransaction StatusCode.NAME_NOT_FOUND),
    compatGetSecureClock :=
      Except.error (Error.BinderTransaction StatusCode.NAME_NOT_FOUND),
    getHardwareInfo := fun _ => Except.ok hwInfoTee }

/-- An environment whose connected device reports a security level
(strongbox) different from the requested one: the native lookup succeeds
and the metadata query reports `hwInfoSb`. -/
def mismatchEnv : Env :=
  { getInterface := fun _ => Except.ok devA,
    compatGetKeyMintDevice := fun _ => Except.ok devB,
    compatGetSecureClock := Except.ok devB,
    getHardwareInfo := fun _ => Except.ok hwInfoSb }

/-! ## Helper lemmas -/

theorem alistLookup_erase_ne {κ α : Type} [DecidableEq κ] (l : List (κ × α))
    (key k2 : κ) (h : k2 ≠ key) :
    alistLookup (alistErase l key) k2 = alistLookup l k2 := by
  induction l with
  | nil => rfl
  | cons p rest ih =>
    obtain ⟨k, v⟩ := p
    by_cases hk : k = key
    · subst hk
      simp [alistErase, alistLookup, ih, h]
    · simp [alistErase, hk, alistLookup, ih]

theorem alistLookup_insert {κ α : Type} [DecidableEq κ] (l : List (κ × α))
    (key k2 : κ) (v : α) :
    alistLookup (alistInsert l key v) k2 =
      if k2 = key then some v else alistLookup l k2 := by
  by_cases h : k2 = key
  · subst h
    simp [alistInsert, alistLookup]
  · simp [alistInsert, alistLookup, h, alistLookup_erase_ne l key k2 h]

theorem fromSecLevel_inj (l1 l2 : SecurityLevel)
    (h : Uuid.fromSecLevel l1 = Uuid.fromSecLevel l2) : l1 = l2 := by
  cases l1 with
  | mk a =>
    cases l2 with
    | mk b =>
      simp [Uuid.fromSecLevel] at h
      simp [h]

/-- The `unwrap()` in `get_keymint_device` cannot fail: looking up the level
just inserted yields the inserted record under the derived identity. -/
theorem dev_by_sec_level_insert_self (m : DevicesMap) (l : SecurityLevel)
    (d : Asp) (h : KeyMintHardwareInfo) :
    (m.insert l d h).dev_by_sec_level l = some (d, h, Uuid.fromSecLevel l) := by
  simp [DevicesMap.insert, DevicesMap.dev_by_sec_level, DevicesMap.dev_by_uuid,
    alistLookup_insert]

theorem dev_by_sec_level_insert_other (m : DevicesMap) (l l0 : SecurityLevel)
    (d : Asp) (h : KeyMintHardwareInfo) (r : Asp × KeyMintHardwareInfo × Uuid)
    (hne : l ≠ l0) (hd : m.Derived) (hr : m.dev_by_sec_level l = some r) :
    (m.insert l0 d h).dev_by_sec_level l = some r := by
  cases hu : alistLookup m.uuid_by_sec_level l with
  | none =>
    rw [DevicesMap.dev_by_sec_level, hu] at hr
    cases hr
  | some u =>
    rw [DevicesMap.dev_by_sec_level, hu] at hr
    have hv : m.dev_by_uuid u = some r := hr
    have hul : u = Uuid.fromSecLevel l := hd l u hu
    have hune : u ≠ Uuid.fromSecLevel l0 := by
      rw [hul]
      intro hcontra
      exact hne (fromSecLevel_inj l l0 hcontra)
    rw [DevicesMap.dev_by_sec_level]
    have hu2 : alistLookup (m.insert l0 d h).uuid_by_sec_level l = some u := by
      simp [DevicesMap.insert, alistLookup_insert, hne, hu]
    rw [hu2]
    show (m.insert l0 d h).dev_by_uuid u = some r
    rw [DevicesMap.dev_by_uuid] at hv ⊢
    have : alistLookup (m.insert l0 d h).devices_by_uuid u =
        alistLookup m.devices_by_uuid u := by
      simp [DevicesMap.insert, alistLookup_insert, hune]
    rw [this]
    exact hv

theorem derived_insert (m : DevicesMap) (l0 : SecurityLevel) (d : Asp)
    (h : KeyMintHardwareInfo) (hd : m.Derived) : (m.insert l0 d h).Derived := by
  intro l u hu
  rw [DevicesMap.insert] at hu
  simp only [alistLookup_insert] at hu
  by_cases hl : l = l0
  · subst hl
    simp at hu
    simp [hu]
  · simp [hl] at hu
    exact hd l u hu

theorem emptyDevicesMap_derived : emptyDevicesMap.Derived := by
  intro l u hu
  simp [emptyDevicesMap, alistLookup] at hu

/-- Cache-hit branch of `get_keymint_device`. -/
theorem get_keymint_device_hit (env : Env) (m : DevicesMap) (l : SecurityLevel)
    (r : Asp × KeyMintHardwareInfo × Uuid) (h : m.dev_by_sec_level l = some r) :
    get_keymint_device env m l = (Except.ok r, m, 0) := by
  rw [get_keymint_device, h]

/-- Cache-miss branch with a failing connector. -/
theorem get_keymint_device_miss_error (env : Env) (m : DevicesMap)
    (l : SecurityLevel) (e : Error) (h1 : m.dev_by_sec_level l = none)
    (h2 : (connect_keymint env l).1 = Except.error e) :
    get_keymint_device env m l = (Except.error e, m, 1) := by
  rw [get_keymint_device, h1, h2]

/-- Cache-miss branch with a successful connector. -/
theorem get_keymint_device_miss_ok (env : Env) (m : DevicesMap)
    (l : SecurityLevel) (d : Asp) (hw : KeyMintHardwareInfo)
    (h1 : m.dev_by_sec_level l = none)
    (h2 : (connect_keymint env l).1 = Except.ok (d, hw)) :
    get_keymint_device env m l =
      (Except.ok (d, hw, Uuid.fromSecLevel l), m.insert l d hw, 1) := by
  rw [get_keymint_device, h1, h2]
  simp [dev_by_sec_level_insert_self]

/-- A successful `get_keymint_device` leaves its result in the cache. -/
theorem get_keymint_device_ok_lookup (env : Env) (m : DevicesMap)
    (l : SecurityLevel) (r : Asp × KeyMintHardwareInfo × Uuid)
    (h : (get_keymint_device env m l).1 = Except.ok r) :
    (get_keymint_device env m l).2.1.dev_by_sec_level l = some r := by
  cases hm : m.dev_by_sec_level l with
  | some r0 =>
    rw [get_keymint_device_hit env m l r0 hm] at h ⊢
    simp at h ⊢
    rw [← h]
    exact hm
  | none =>
    cases hc : (connect_keymint env l).1 with
    | error e =>
      rw [get_keymint_device_miss_error env m l e hm hc] at h
      cases h
    | ok p =>
      obtain ⟨d, hw⟩ := p
      rw [get_keymint_device_miss_ok env m l d hw hm hc] at h ⊢
      simp at h ⊢
      rw [← h]
      exact dev_by_sec_level_insert_self m l d hw

theorem get_keymint_device_preserves_derived (env : Env) (m : DevicesMap)
    (l : SecurityLevel) (hd : m.Derived) :
    (get_keymint_device env m l).2.1.Derived := by
  cases hm : m.dev_by_sec_level l with
  | some r0 =>
    rw [get_keymint_device_hit env m l r0 hm]
    exact hd
  | none =>
    cases hc : (connect_keymint env l).1 with
    | error e =>
      rw [get_keymint_device_miss_error env m l e hm hc]
      exact hd
    | ok p =>
      obtain ⟨d, hw⟩ := p
      rw [get_keymint_device_miss_ok env m l d hw hm hc]
      exact derived_insert m l d hw hd

/-- One further `get_keymint_device` call, for any level and environment,
preserves an existing resolution and the derivation invariant. -/
theorem get_step_preserves (env : Env) (m : DevicesMap) (l l0 : SecurityLevel)
    (r : Asp × KeyMintHardwareInfo × Uuid)
    (hd : m.Derived) (hr : m.dev_by_sec_level l = some r) :
    (get_keymint_device env m l0).2.1.dev_by_sec_level l = some r ∧
      (get_keymint_device env m l0).2.1.Derived := by
  refine ⟨?_, get_keymint_device_preserves_derived env m l0 hd⟩
  cases hm : m.dev_by_sec_level l0 with
  | some r0 =>
    rw [get_keymint_device_hit env m l0 r0 hm]
    exact hr
  | none =>
    have hne : l ≠ l0 := by
      intro hcontra
      subst hcontra
      rw [hr] at hm
      cases hm
    cases hc : (connect_keymint env l0).1 with
    | error e =>
      rw [get_keymint_device_miss_error env m l0 e hm hc]
      exact hr
    | ok p =>
      obtain ⟨d, hw⟩ := p
      rw [get_keymint_device_miss_ok env m l0 d hw hm hc]
      exact dev_by_sec_level_insert_other m l l0 d hw r hne hd hr

theorem run_get_calls_preserves (ops : List (Env × SecurityLevel))
    (m : DevicesMap) (l : SecurityLevel) (r : Asp × KeyMintHardwareInfo × Uuid)
    (hd : m.Derived) (hr : m.dev_by_sec_level l = some r) :
    (run_get_calls ops m).dev_by_sec_level l = some r ∧
      (run_get_calls ops m).Derived := by
  induction ops generalizing m with
  | nil => exact ⟨hr, hd⟩
  | cons p rest ih =>
    obtain ⟨env0, l0⟩ := p
    have step := get_step_preserves env0 m l l0 r hd hr
    simp only [run_get_calls]
    exact ih (get_keymint_device env0 m l0).2.1 step.2 step.1

/-- A by-level cache entry is reachable through `get_keymint_dev_by_uuid`
with the identity component of the record. -/
theorem by_uuid_of_dev_by_sec_level (m : DevicesMap) (l : SecurityLevel)
    (dev : Asp) (hw : KeyMintHardwareInfo) (u : Uuid)
    (h : m.dev_by_sec_level l = some (dev, hw, u)) :
    get_keymint_dev_by_uuid m u = (Except.ok (dev, hw), 0) := by
  cases hu : alistLookup m.uuid_by_sec_level l with
  | none =>
    rw [DevicesMap.dev_by_sec_level, hu] at h
    cases h
  | some u0 =>
    rw [DevicesMap.dev_by_sec_level, hu] at h
    have hv : m.dev_by_uuid u0 = some (dev, hw, u) := h
    cases hq : alistLookup m.devices_by_uuid u0 with
    | none =>
      rw [DevicesMap.dev_by_uuid, hq] at hv
      cases hv
    | some p =>
      obtain ⟨d0, h0⟩ := p
      rw [DevicesMap.dev_by_uuid, hq] at hv
      simp at hv
      obtain ⟨hdev, hhw, huu⟩ := hv
      subst hdev
      subst hhw
      subst huu
      rw [get_keymint_dev_by_uuid, DevicesMap.dev_by_uuid, hq]
      simp

theorem run_sessions_after_done (n : Nat) :
    run_sessions n true = (true, List.replicate n []) := by
  induction n with
  | zero => rfl
  | succ k ih =>
    simp [run_sessions, create_thread_local_db, ih, List.replicate]

/-! ## Claims -/

/-- C1: once `get_keymint_device` has returned successfully for a level,
every later call for that level — after arbitrary further
`get_keymint_device` calls for any levels and environments — returns the
identical record (same handle identity), leaves the cache unchanged and
invokes `connect_keymint` zero times. -/
theorem get_keymint_device_cached_after_success (env : Env) (m : DevicesMap)
    (l : SecurityLevel) (r : Asp × KeyMintHardwareInfo × Uuid)
    (hd : m.Derived) (hok : (get_keymint_device env m l).1 = Except.ok r)
    (ops : List (Env × SecurityLevel)) (env2 : Env) :
    get_keymint_device env2 (run_get_calls ops (get_keymint_device env m l).2.1) l
      = (Except.ok r, run_get_calls ops (get_keymint_device env m l).2.1, 0) := by
  have hpost := get_keymint_device_ok_lookup env m l r hok
  have hder := get_keymint_device_preserves_derived env m l hd
  have hrun := run_get_calls_preserves ops _ l r hder hpost
  exact get_keymint_device_hit env2 _ l r hrun.1

theorem get_keymint_device_cached_after_success_witness :
    get_keymint_device absentEnv
        (run_get_calls [(okEnv, SecurityLevel.STRONGBOX)]
          (get_keymint_device okEnv emptyDevicesMap
              SecurityLevel.TRUSTED_ENVIRONMENT).2.1)
        SecurityLevel.TRUSTED_ENVIRONMENT
      = (Except.ok (devA, hwInfoTee,
            Uuid.fromSecLevel SecurityLevel.TRUSTED_ENVIRONMENT),
         run_get_calls [(okEnv, SecurityLevel.STRONGBOX)]
          (get_keymint_device okEnv emptyDevicesMap
              SecurityLevel.TRUSTED_ENVIRONMENT).2.1, 0) :=
  get_keymint_device_cached_after_success okEnv emptyDevicesMap
    SecurityLevel.TRUSTED_ENVIRONMENT
    (devA, hwInfoTee, Uuid.fromSecLevel SecurityLevel.TRUSTED_ENVIRONMENT)
    emptyDevicesMap_derived rfl [(okEnv, SecurityLevel.STRONGBOX)] absentEnv

/-- C2: for every positive number of first-session creations, the repair
sequence (last-off-body timestamp insert, leftover cleanup, GC notify) is
performed exactly once, in that order, during the first creation — hence
before that call returns — and every later session creation performs no
repair step. -/
theorem repair_runs_exactly_once (n : Nat) (hn : 0 < n) :
    run_sessions n false
      = (true, repair_sequence :: List.replicate (n - 1) []) := by
  cases n with
  | zero => cases hn
  | succ k =>
    simp [run_sessions, create_thread_local_db, run_sessions_after_done,
      Nat.succ_sub_one]

theorem repair_runs_exactly_once_witness :
    0 < 3 ∧ run_sessions 3 false
      = (true, repair_sequence :: List.replicate (3 - 1) []) :=
  ⟨by decide, repair_runs_exactly_once 3 (by decide)⟩

/-- C3 counterexample: with both the native KeyMint service and the
compatibility service absent (every lookup reports NAME_NOT_FOUND),
`connect_keymint` returns the raw `BinderTransaction(NAME_NOT_FOUND)`
error — not `Km(HARDWARE_TYPE_UNAVAILABLE)` — because the error of the
compat-service lookup escapes through the `?` operator before the
translating `map_err` is reached. This refutes the claim that a second
name-not-found, with the bridge absent, is always translated. -/
theorem connect_keymint_bridge_absent_raw_name_not_found :
    (connect_keymint absentEnv SecurityLevel.TRUSTED_ENVIRONMENT).1
        = Except.error (Error.BinderTransaction StatusCode.NAME_NOT_FOUND)
    ∧ Error.BinderTransaction StatusCode.NAME_NOT_FOUND
        ≠ Error.Km ErrorCode.HARDWARE_TYPE_UNAVAILABLE :=
  ⟨rfl, by decide⟩

/-- C3 amended: if the native lookup reports NAME_NOT_FOUND, the
compat-service lookup succeeds, and the legacy-wrapper request reports
NAME_NOT_FOUND (the legacy wrapper is absent), then `connect_keymint`
fails with `HARDWARE_TYPE_UNAVAILABLE` and not a raw name-not-found;
a NAME_NOT_FOUND from the compat-service lookup itself, however,
propagates untranslated. -/
theorem connect_keymint_wrapper_absent_translated (env : Env)
    (l : SecurityLevel) (name : String) (compat : Asp)
    (h1 : keymint_service_name l = some name)
    (h2 : env.getInterface name = Except.error StatusCode.NAME_NOT_FOUND)
    (h3 : env.getInterface ("android.security.compat") = Except.ok compat)
    (h4 : env.compatGetKeyMintDevice l
        = Except.error (Error.BinderTransaction StatusCode.NAME_NOT_FOUND)) :
    (connect_keymint env l).1
      = Except.error (Error.Km ErrorCode.HARDWARE_TYPE_UNAVAILABLE) := by
  simp [connect_keymint, connect_keymint_native, keymint_fallback,
    map_binder_status_code, h1, h2, h3, h4]

theorem connect_keymint_wrapper_absent_translated_witness :
    (connect_keymint wrapperAbsentEnv SecurityLevel.TRUSTED_ENVIRONMENT).1
      = Except.error (Error.Km ErrorCode.HARDWARE_TYPE_UNAVAILABLE) :=
  connect_keymint_wrapper_absent_translated wrapperAbsentEnv
    SecurityLevel.TRUSTED_ENVIRONMENT (KEYMINT_SERVICE_NAME ++ "/default") devB
    rfl rfl rfl rfl

/-- C4: if the native service lookup fails with any status other than
NAME_NOT_FOUND, `connect_keymint` returns that error as a binder
transaction error and its external-call log holds only the native lookup:
no bridge registration, no compat-service lookup, no wrapper request. -/
theorem connect_keymint_no_fallback_on_transport_error (env : Env)
    (l : SecurityLevel) (name : String) (c : StatusCode)
    (h1 : keymint_service_name l = some name)
    (h2 : env.getInterface name = Except.error c)
    (h3 : c ≠ StatusCode.NAME_NOT_FOUND) :
    connect_keymint env l
      = (Except.error (Error.BinderTransaction c),
         [ExtCall.getInterface name]) := by
  cases c with
  | NAME_NOT_FOUND => exact absurd rfl h3
  | otherCode k =>
    simp [connect_keymint, connect_keymint_native, map_binder_status_code,
      h1, h2]

theorem connect_keymint_no_fallback_on_transport_error_witness :
    connect_keymint transportErrEnv SecurityLevel.TRUSTED_ENVIRONMENT
      = (Except.error (Error.BinderTransaction (StatusCode.otherCode (-32))),
         [ExtCall.getInterface (KEYMINT_SERVICE_NAME ++ "/default")]) :=
  connect_keymint_no_fallback_on_transport_error transportErrEnv
    SecurityLevel.TRUSTED_ENVIRONMENT (KEYMINT_SERVICE_NAME ++ "/default")
    (StatusCode.otherCode (-32)) rfl rfl (by decide)

/-- C5: `connect_keymint` maps the trusted-execution level to the service
name suffix "default" and strongbox to "strongbox"; for every other level
it fails immediately with `HARDWARE_TYPE_UNAVAILABLE`, with an empty
external-call log, i.e. without attempting any service lookup. -/
theorem connect_keymint_service_name_map :
    keymint_service_name SecurityLevel.TRUSTED_ENVIRONMENT
        = some (KEYMINT_SERVICE_NAME ++ "/default")
    ∧ keymint_service_name SecurityLevel.STRONGBOX
        = some (KEYMINT_SERVICE_NAME ++ "/strongbox")
    ∧ ∀ (env : Env) (l : SecurityLevel),
        l ≠ SecurityLevel.TRUSTED_ENVIRONMENT → l ≠ SecurityLevel.STRONGBOX →
        connect_keymint env l
          = (Except.error (Error.Km ErrorCode.HARDWARE_TYPE_UNAVAILABLE), []) := by
  refine ⟨rfl, rfl, ?_⟩
  intro env l h1 h2
  simp [connect_keymint, keymint_service_name, h1, h2]

theorem connect_keymint_service_name_map_witness :
    connect_keymint absentEnv SecurityLevel.SOFTWARE
      = (Except.error (Error.Km ErrorCode.HARDWARE_TYPE_UNAVAILABLE), []) :=
  connect_keymint_service_name_map.2.2 absentEnv SecurityLevel.SOFTWARE
    (by decide) (by decide)

/-- C6: `get_keymint_dev_by_uuid` performs zero connector invocations,
fails with the backend-not-found error (`Error::sys()`) exactly when the
identity has no record in the cache, and a recorded identity is never
removed by the only mutation, `DevicesMap::insert` — so "never inserted"
and "absent" coincide on every reachable cache. -/
theorem get_keymint_dev_by_uuid_cache_only (m : DevicesMap) (u : Uuid) :
    (get_keymint_dev_by_uuid m u).2 = 0
    ∧ ((get_keymint_dev_by_uuid m u).1 = Except.error Error.sys
        ↔ m.dev_by_uuid u = none)
    ∧ (∀ (l : SecurityLevel) (d : Asp) (h : KeyMintHardwareInfo),
        (m.dev_by_uuid u).isSome = true →
        ((m.insert l d h).dev_by_uuid u).isSome = true) := by
  refine ⟨?_, ?_, ?_⟩
  · cases hm : m.dev_by_uuid u with
    | some p =>
      obtain ⟨d, hw, u0⟩ := p
      rw [get_keymint_dev_by_uuid, hm]
    | none => rw [get_keymint_dev_by_uuid, hm]
  · cases hm : m.dev_by_uuid u with
    | some p =>
      obtain ⟨d, hw, u0⟩ := p
      rw [get_keymint_dev_by_uuid, hm]
      simp
    | none =>
      rw [get_keymint_dev_by_uuid, hm]
      simp
  · intro l d h hsome
    rw [DevicesMap.dev_by_uuid] at hsome ⊢
    simp only [DevicesMap.insert, alistLookup_insert]
    by_cases hu : u = Uuid.fromSecLevel l
    · simp [hu]
    · simp only [if_neg hu]
      exact hsome

theorem get_keymint_dev_by_uuid_cache_only_witness :
    (((emptyDevicesMap.insert SecurityLevel.TRUSTED_ENVIRONMENT devA
        hwInfoTee).insert SecurityLevel.STRONGBOX devB hwInfoSb).dev_by_uuid
        (Uuid.fromSecLevel SecurityLevel.TRUSTED_ENVIRONMENT)).isSome = true :=
  (get_keymint_dev_by_uuid_cache_only
      (emptyDevicesMap.insert SecurityLevel.TRUSTED_ENVIRONMENT devA hwInfoTee)
      (Uuid.fromSecLevel SecurityLevel.TRUSTED_ENVIRONMENT)).2.2
    SecurityLevel.STRONGBOX devB hwInfoSb rfl

/-- C7: `get_timestamp_service` returns the cached secure-clock handle,
with no connection attempt, whenever one is present; on a cache miss it
connects, caches the connected handle and returns it; and the cached cell,
once populated, is never replaced or cleared by any call. -/
theorem get_timestamp_service_singleton :
    (∀ (env : Env) (dev : Asp),
      get_timestamp_service env (some dev) = (Except.ok dev, some dev, 0))
    ∧ (∀ (env : Env) (dev : Asp),
        (connect_secureclock env).1 = Except.ok dev →
        get_timestamp_service env none = (Except.ok dev, some dev, 1))
    ∧ (∀ (env : Env) (ts ts2 : Option Asp) (res : Except Error Asp) (k : Nat)
        (dev : Asp), get_timestamp_service env ts = (res, ts2, k) →
        ts = some dev → ts2 = some dev) := by
  refine ⟨fun env dev => rfl, ?_, ?_⟩
  · intro env dev h
    simp [get_timestamp_service, h]
  · intro env ts ts2 res k dev hcall hts
    subst hts
    have hcall2 : ((Except.ok dev, some dev, 0) :
        Except Error Asp × Option Asp × Nat) = (res, ts2, k) := hcall
    injection hcall2 with hres hrest
    injection hrest with hts2 hk
    exact hts2.symm

theorem get_timestamp_service_singleton_witness :
    get_timestamp_service okEnv none = (Except.ok devA, some devA, 1) :=
  get_timestamp_service_singleton.2.1 okEnv devA rfl

/-- C8: if `get_keymint_device` succeeds with `(handle, metadata, u)`,
then a later `get_keymint_dev_by_uuid u` — after arbitrary further
`get_keymint_device` calls — succeeds with the same `(handle, metadata)`
pair and performs no connector invocation. -/
theorem by_uuid_after_by_level_success (env : Env) (m : DevicesMap)
    (l : SecurityLevel) (dev : Asp) (hw : KeyMintHardwareInfo) (u : Uuid)
    (hd : m.Derived)
    (hok : (get_keymint_device env m l).1 = Except.ok (dev, hw, u))
    (ops : List (Env × SecurityLevel)) :
    get_keymint_dev_by_uuid (run_get_calls ops (get_keymint_device env m l).2.1) u
      = (Except.ok (dev, hw), 0) := by
  have hpost := get_keymint_device_ok_lookup env m l (dev, hw, u) hok
  have hder := get_keymint_device_preserves_derived env m l hd
  have hrun := run_get_calls_preserves ops _ l (dev, hw, u) hder hpost
  exact by_uuid_of_dev_by_sec_level _ l dev hw u hrun.1

theorem by_uuid_after_by_level_success_witness :
    get_keymint_dev_by_uuid
        (run_get_calls []
          (get_keymint_device okEnv emptyDevicesMap
              SecurityLevel.TRUSTED_ENVIRONMENT).2.1)
        (Uuid.fromSecLevel SecurityLevel.TRUSTED_ENVIRONMENT)
      = (Except.ok (devA, hwInfoTee), 0) :=
  by_uuid_after_by_level_success okEnv emptyDevicesMap
    SecurityLevel.TRUSTED_ENVIRONMENT devA hwInfoTee
    (Uuid.fromSecLevel SecurityLevel.TRUSTED_ENVIRONMENT)
    emptyDevicesMap_derived rfl []

/-- C9 counterexample: requesting the trusted-execution level from a
backend whose metadata reports the strongbox level, the identity recorded
and returned is derived from the requested level, not from the reported
`hw_info.securityLevel` — the two derived identities differ. This refutes
"derived from the reported security level of the connected backend". -/
theorem identity_from_reported_level_counterexample :
    (get_keymint_device mismatchEnv emptyDevicesMap
        SecurityLevel.TRUSTED_ENVIRONMENT).1
      = Except.ok (devA, hwInfoSb,
          Uuid.fromSecLevel SecurityLevel.TRUSTED_ENVIRONMENT)
    ∧ Uuid.fromSecLevel SecurityLevel.TRUSTED_ENVIRONMENT
        ≠ Uuid.fromSecLevel hwInfoSb.securityLevel :=
  ⟨rfl, by decide⟩

/-- C9 amended: the identity recorded in the cache and returned to the
caller is derived deterministically (1:1) from the requested security
level — the `sec_level` argument of `DevicesMap::insert`, passed down from
`get_keymint_device` — and `insert` records both the identity-to-record and
the level-to-identity mapping for that derived identity. -/
theorem insert_identity_from_requested_level (m : DevicesMap)
    (l : SecurityLevel) (dev : Asp) (hw : KeyMintHardwareInfo) :
    alistLookup (m.insert l dev hw).uuid_by_sec_level l
        = some (Uuid.fromSecLevel l)
    ∧ alistLookup (m.insert l dev hw).devices_by_uuid (Uuid.fromSecLevel l)
        = some (dev, hw)
    ∧ (∀ l1 l2 : SecurityLevel,
        Uuid.fromSecLevel l1 = Uuid.fromSecLevel l2 → l1 = l2)
    ∧ (∀ (env : Env) (d0 : Asp) (h0 : KeyMintHardwareInfo) (u : Uuid),
        m.Derived →
        (get_keymint_device env m l).1 = Except.ok (d0, h0, u) →
        u = Uuid.fromSecLevel l) := by
  refine ⟨?_, ?_, fromSecLevel_inj, ?_⟩
  · simp [DevicesMap.insert, alistLookup_insert]
  · simp [DevicesMap.insert, alistLookup_insert]
  · intro env d0 h0 u hd hok
    have hpost := get_keymint_device_ok_lookup env m l (d0, h0, u) hok
    have hder := get_keymint_device_preserves_derived env m l hd
    cases hu : alistLookup (get_keymint_device env m l).2.1.uuid_by_sec_level l with
    | none =>
      rw [DevicesMap.dev_by_sec_level, hu] at hpost
      cases hpost
    | some u0 =>
      rw [DevicesMap.dev_by_sec_level, hu] at hpost
      have hv : (get_keymint_device env m l).2.1.dev_by_uuid u0
          = some (d0, h0, u) := hpost
      have hu0 : u0 = Uuid.fromSecLevel l := hder l u0 hu
      rw [DevicesMap.dev_by_uuid] at hv
      cases hq : alistLookup (get_keymint_device env m l).2.1.devices_by_uuid u0 with
      | none =>
        rw [hq] at hv
        cases hv
      | some p =>
        rw [hq] at hv
        obtain ⟨dd, hh⟩ := p
        simp at hv
        rw [← hv.2.2]
        exact hu0

theorem insert_identity_from_requested_level_witness :
    (⟨1⟩ : Uuid) = Uuid.fromSecLevel SecurityLevel.TRUSTED_ENVIRONMENT :=
  (insert_identity_from_requested_level emptyDevicesMap
      SecurityLevel.TRUSTED_ENVIRONMENT devA hwInfoTee).2.2.2
    okEnv devA hwInfoTee ⟨1⟩ emptyDevicesMap_derived rfl

/-- C10: a failing connector leaves the corresponding cache unchanged:
a failed `connect_keymint` (including a metadata-query failure, which is
one of its error cases) inserts nothing and returns the cache as it was,
and a failed `connect_secureclock` leaves the timestamp cell `None`; a
later call on the unchanged cache performs a fresh connection attempt. -/
theorem connector_failure_leaves_cache_unchanged :
    (∀ (env : Env) (m : DevicesMap) (l : SecurityLevel) (e : Error),
      m.dev_by_sec_level l = none →
      (connect_keymint env l).1 = Except.error e →
      get_keymint_device env m l = (Except.error e, m, 1))
    ∧ (∀ (env : Env) (e : Error),
        (connect_secureclock env).1 = Except.error e →
        get_timestamp_service env none = (Except.error e, none, 1))
    ∧ (∀ (env2 : Env) (m : DevicesMap) (l : SecurityLevel),
        m.dev_by_sec_level l = none →
        (get_keymint_device env2 m l).2.2 = 1)
    ∧ ∀ (env2 : Env), (get_timestamp_service env2 none).2.2 = 1 := by
  refine ⟨fun env m l e h1 h2 =>
    get_keymint_device_miss_error env m l e h1 h2, ?_, ?_, ?_⟩
  · intro env e h
    simp [get_timestamp_service, h]
  · intro env2 m l h1
    cases hc : (connect_keymint env2 l).1 with
    | error e => rw [get_keymint_device_miss_error env2 m l e h1 hc]
    | ok p =>
      obtain ⟨d, hw⟩ := p
      rw [get_keymint_device_miss_ok env2 m l d hw h1 hc]
  · intro env2
    cases hc : (connect_secureclock env2).1 with
    | error e => simp [get_timestamp_service, hc]
    | ok dev => simp [get_timestamp_service, hc]

theorem connector_failure_leaves_cache_unchanged_witness :
    get_keymint_device absentEnv emptyDevicesMap
        SecurityLevel.TRUSTED_ENVIRONMENT
      = (Except.error (Error.BinderTransaction StatusCode.NAME_NOT_FOUND),
         emptyDevicesMap, 1)
    ∧ get_timestamp_service absentEnv none
      = (Except.error (Error.BinderTransaction StatusCode.NAME_NOT_FOUND),
         none, 1) :=
  ⟨connector_failure_leaves_cache_unchanged.1 absentEnv emptyDevicesMap
      SecurityLevel.TRUSTED_ENVIRONMENT
      (Error.BinderTransaction StatusCode.NAME_NOT_FOUND) rfl rfl,
   connector_failure_leaves_cache_unchanged.2.1 absentEnv
      (Error.BinderTransaction StatusCode.NAME_NOT_FOUND) rfl⟩

end Keystore2
